import Mathlib

/-!
A shallow embedding of the storage-adapter facade of `lgtr_infra/io_adapters.py`,
together with proofs about its specified behaviour.

Modelling conventions:
* Python functions become Lean functions; Python exceptions become `Except` errors.
* The remote-drive backend, the local file system and the Python object heap are
  explicit state values threaded through the operations.
* Byte strings are `List Nat`.
* The external API client is modelled by its observable behaviour: a request
  either yields a response value or an exception (`Except GExc _`).
-/

/-- Exceptions produced by the underlying API client:
`googleapiclient.errors.HttpError` carrying `error_details[0]['reason']`,
or any other exception. -/
inductive GExc where
  | httpError (reason : String)
  | other (msg : String)
deriving DecidableEq, Repr

/-- Python-level errors of the module, one constructor per distinct raise site or
Python builtin error.  The module's own raise sites are named after the spec's
error taxonomy: `integrityError` is the raise
`Exception('Every file must have exactly one parent folder location')`,
`transientError` is `TemporaryException('Google API rate limit exceeded')`,
`batchFailure` is `Exception('Batch request failed: ...')` carrying the collected
underlying errors, and `gerror` is an uncaught client exception propagating to
the caller. -/
inductive PyError where
  | integrityError
  | transientError
  | batchFailure (errs : List GExc)
  | typeError
  | attributeError
  | keyError
  | indexError
  | fileExistsError
  | gerror (e : GExc)
deriving DecidableEq, Repr

/-- A provider metadata dictionary, as returned by the drive API endpoints
(`files().get`, `files().list` entries, `files().create`, `files().update`).
The `parents` key may be absent (`none`). -/
structure RawMeta where
  id : String
  name : String
  parents : Option (List String)
deriving DecidableEq, Repr

/-- The dataclass `FileMeta` of `io_adapters.py`. -/
structure FileMeta where
  id : Option String := none
  name : Option String := none
  parent_ids : Option (List String) := none
  _raw : Option RawMeta := none
deriving DecidableEq, Repr

deriving instance DecidableEq for Except

/-- Embeds `raise_if_temporary_exception`: re-raises a rate-limit-coded
`HttpError` as the transient error, and returns normally otherwise. -/
def raise_if_temporary_exception (exception : GExc) : Except PyError Unit :=
  match exception with
  | .httpError reason =>
    if reason = "userRateLimitExceeded" then Except.error PyError.transientError
    else Except.ok ()
  | .other _ => Except.ok ()

/-- The classifier used by `raise_if_temporary_exception`: an exception is a
transient rate-limit condition iff it is an `HttpError` whose provider error
code is `userRateLimitExceeded`. -/
def is_rate_limit (exception : GExc) : Bool :=
  match exception with
  | .httpError reason => reason == "userRateLimitExceeded"
  | .other _ => false

/-- The loop `for exception in exceptions: raise_if_temporary_exception(exception)`
of `gapi_batch_wrapper`. -/
def raise_temporaries : List GExc → Except PyError Unit
  | [] => Except.ok ()
  | e :: rest => do
    raise_if_temporary_exception e
    raise_temporaries rest

/-- The error component of a sub-request outcome (what the batch callback
appends to `exceptions`). -/
def err_of {ρ : Type} : Except GExc ρ → Option GExc
  | .error e => some e
  | .ok _ => none

/-- The entry the batch callback appends to `response_objects` for one
sub-request: `resp if resp else None` — a failed sub-request has `resp = None`,
and a falsy successful response (an empty dict, decided by the per-endpoint
`is_falsy` predicate) is likewise stored as `None`. -/
def resp_entry {ρ : Type} (is_falsy : ρ → Bool) : Except GExc ρ → Option ρ
  | .ok resp => if is_falsy resp then none else some resp
  | .error _ => none

/-- Embeds `gapi_batch_wrapper`.  A batch of sub-requests is modelled by the
list of their outcomes (`results`); `is_falsy` says which successful response
dicts of the queried endpoint are falsy (empty).  The callback collects, in
callback order, `resp if resp else None` into `response_objects` and the
exceptions into `exceptions`.  After the batch completes, every collected
exception goes through `raise_if_temporary_exception`; then a non-empty
exception list raises the aggregated batch failure; otherwise the responses
are returned. -/
def gapi_batch_wrapper {ρ : Type} (is_falsy : ρ → Bool)
    (results : List (Except GExc ρ)) :
    Except PyError (List (Option ρ)) := do
  let response_objects := results.map (resp_entry is_falsy)
  let exceptions := results.filterMap err_of
  raise_temporaries exceptions
  if exceptions.length > 0 then
    Except.error (PyError.batchFailure exceptions)
  else
    pure response_objects

/-- Embeds the semantics of the decorator
`retry(exceptions=(TemporaryException,), tries=tries, delay=delay, backoff=backoff)`
from the `retry` package: the wrapped call is attempted, a raised
`TemporaryException` is caught and the call retried after sleeping the current
delay (which is then multiplied by `backoff`) as long as attempts remain; any
other outcome (success or a non-temporary exception) is returned immediately.
The wrapped function is modelled as a map from the attempt index to that
attempt's outcome; the second component of the result is the list of slept
delays. -/
def retry_exec {α : Type} (f : Nat → Except PyError α) (backoff : Nat) :
    Nat → Nat → Nat → Except PyError α × List Nat
  | attempt, _delay, 0 => (f attempt, [])
  | attempt, _delay, 1 => (f attempt, [])
  | attempt, delay, tries + 2 =>
    match f attempt with
    | .error .transientError =>
      let rest := retry_exec f backoff (attempt + 1) (delay * backoff) (tries + 1)
      (rest.1, delay :: rest.2)
    | r => (r, [])

/-- Embeds `retry_gdrive = retry(exceptions=(TemporaryException,), tries=4,
delay=1, backoff=2)` applied to a function. -/
def retry_gdrive_run {α : Type} (f : Nat → Except PyError α) :
    Except PyError α × List Nat :=
  retry_exec f 2 0 1 4

theorem raise_if_temporary_ok (e : GExc) (h : is_rate_limit e = false) :
    raise_if_temporary_exception e = Except.ok () := by
  cases e with
  | httpError reason =>
    simp [is_rate_limit] at h
    simp [raise_if_temporary_exception, h]
  | other msg => rfl

theorem raise_if_temporary_err (e : GExc) (h : is_rate_limit e = true) :
    raise_if_temporary_exception e = Except.error PyError.transientError := by
  cases e with
  | httpError reason =>
    simp [is_rate_limit] at h
    simp [raise_if_temporary_exception, h]
  | other msg => simp [is_rate_limit] at h

theorem raise_temporaries_ok (l : List GExc)
    (h : ∀ e ∈ l, is_rate_limit e = false) :
    raise_temporaries l = Except.ok () := by
  induction l with
  | nil => rfl
  | cons e rest ih =>
    have he : is_rate_limit e = false := h e (List.mem_cons_self e rest)
    simp [raise_temporaries, raise_if_temporary_ok e he]
    exact ih (fun x hx => h x (List.mem_cons_of_mem e hx))

theorem raise_temporaries_err (l : List GExc)
    (h : ∃ e ∈ l, is_rate_limit e = true) :
    raise_temporaries l = Except.error PyError.transientError := by
  induction l with
  | nil => simp at h
  | cons e rest ih =>
    by_cases he : is_rate_limit e = true
    · simp [raise_temporaries, raise_if_temporary_err e he, Bind.bind, Except.bind]
    · have he' : is_rate_limit e = false := by
        cases hb : is_rate_limit e
        · rfl
        · exact absurd hb he
      obtain ⟨x, hx, hxr⟩ := h
      rcases List.mem_cons.mp hx with hx1 | hx2
      · subst hx1; exact absurd hxr he
      · simp [raise_temporaries, raise_if_temporary_ok e he', Bind.bind, Except.bind]
        exact ih ⟨x, hx2, hxr⟩

/-- C2: after the batch completes, if at least one collected exception is a
transient rate-limit condition (by provider error code) the wrapper raises the
distinguished transient error; if the collected exceptions are non-empty and
none is a rate-limit condition, it raises a single aggregated batch failure
carrying the underlying errors. -/
theorem C2_execute_batch {ρ : Type} (is_falsy : ρ → Bool)
    (results : List (Except GExc ρ)) :
    ((∃ e ∈ results.filterMap err_of, is_rate_limit e = true) →
      gapi_batch_wrapper is_falsy results =
        Except.error PyError.transientError) ∧
    (results.filterMap err_of ≠ [] →
      (∀ e ∈ results.filterMap err_of, is_rate_limit e = false) →
      gapi_batch_wrapper is_falsy results =
        Except.error (PyError.batchFailure (results.filterMap err_of))) := by
  constructor
  · intro h
    simp [gapi_batch_wrapper, Bind.bind, Except.bind,
      raise_temporaries_err (results.filterMap err_of) h]
  · intro hne hall
    have hlen : 0 < (results.filterMap err_of).length :=
      List.length_pos.mpr hne
    simp [gapi_batch_wrapper, Bind.bind, Except.bind,
      raise_temporaries_ok (results.filterMap err_of) hall, hlen]

/-- Witness for C2 at concrete batches: a batch whose single sub-request failed
with a rate-limit-coded error raises the transient error, and a batch whose
single sub-request failed with a non-rate-limit error raises the aggregated
batch failure carrying that error. -/
theorem C2_execute_batch_witness :
    gapi_batch_wrapper (fun _ => false)
        ([Except.error (GExc.httpError "userRateLimitExceeded"),
          Except.ok (0 : Nat)]) = Except.error PyError.transientError ∧
    gapi_batch_wrapper (fun _ => false)
        ([Except.error (GExc.other "boom"), Except.ok (0 : Nat)]) =
      Except.error (PyError.batchFailure [GExc.other "boom"]) := by
  constructor
  · exact (C2_execute_batch _ _).1 (by decide)
  · exact (C2_execute_batch _ _).2 (by decide) (by decide)

/-- C7: the module's retry policy (4 attempts, initial delay 1 time-unit,
backoff multiplier 2) retries only the transient error, sleeping delays
1, 2, 4 between its 4 attempts and then surfacing the transient error; a
non-transient error from the first attempt propagates immediately with no
retry, and a success is returned immediately. -/
theorem C7_retry_policy {α : Type} (f : Nat → Except PyError α) :
    ((∀ i, i < 4 → f i = Except.error PyError.transientError) →
      retry_gdrive_run f = (Except.error PyError.transientError, [1, 2, 4])) ∧
    (∀ e, e ≠ PyError.transientError → f 0 = Except.error e →
      retry_gdrive_run f = (Except.error e, [])) ∧
    (∀ a, f 0 = Except.ok a → retry_gdrive_run f = (Except.ok a, [])) := by
  refine ⟨fun h => ?_, fun e he h0 => ?_, fun a h0 => ?_⟩
  · have h0 := h 0 (by omega)
    have h1 := h 1 (by omega)
    have h2 := h 2 (by omega)
    have h3 := h 3 (by omega)
    simp [retry_gdrive_run, retry_exec, h0, h1, h2, h3]
  · cases e <;> simp_all [retry_gdrive_run, retry_exec]
  · simp [retry_gdrive_run, retry_exec, h0]

/-- Witness for C7 at concrete wrapped operations: an operation that always
raises the transient error is attempted 4 times with slept delays 1, 2, 4 and
then surfaces the transient error; an operation raising a non-transient error
propagates it immediately with no sleeps; a succeeding operation returns its
value with no sleeps. -/
theorem C7_retry_policy_witness :
    retry_gdrive_run (fun _ => (Except.error PyError.transientError :
        Except PyError Nat)) =
      (Except.error PyError.transientError, [1, 2, 4]) ∧
    retry_gdrive_run (fun _ => (Except.error PyError.keyError :
        Except PyError Nat)) = (Except.error PyError.keyError, []) ∧
    retry_gdrive_run (fun _ => (Except.ok 7 : Except PyError Nat)) =
      (Except.ok 7, []) := by
  refine ⟨?_, ?_, ?_⟩
  · exact (C7_retry_policy _).1 (fun i _ => rfl)
  · exact (C7_retry_policy _).2.1 PyError.keyError (by decide) rfl
  · exact (C7_retry_policy _).2.2 7 rfl

/-- An object stored in the remote-drive backend. -/
structure DriveObject where
  id : String
  name : String
  parents : List String
  isFolder : Bool
  content : List Nat
  trashed : Bool
deriving DecidableEq, Repr

/-- The state of the remote-drive backend: its objects, and a counter from
which the service assigns ids to newly created objects. -/
structure DriveState where
  objects : List DriveObject
  next_id : Nat
deriving DecidableEq, Repr

/-- Resolving an object id on the backend. -/
def DriveState.lookup (st : DriveState) (oid : String) : Option DriveObject :=
  st.objects.find? (fun o => o.id == oid)

/-- The id the backend assigns to the next created object. -/
def DriveState.fresh_id (st : DriveState) : String :=
  "gen" ++ toString st.next_id

/-- Embeds `raw_meta_to_file_meta` of `IoAdapterGdrive`: `parents` defaults to
the empty list when the response has no such key. -/
def raw_meta_to_file_meta (raw_meta : RawMeta) : FileMeta :=
  { id := some raw_meta.id
    name := some raw_meta.name
    parent_ids := some (raw_meta.parents.getD [])
    _raw := some raw_meta }

namespace IoAdapterGdrive

/-- Outcome of the sub-request `service.files().get(fileId=oid, fields='parents')`:
the response dictionary's optional `parents` entry (the key is absent for a
parentless object), or a not-found client error when the id does not resolve. -/
def files_get_parents (st : DriveState) (oid : String) :
    Except GExc (Option (List String)) :=
  match st.lookup oid with
  | some o => Except.ok (if o.parents.isEmpty then none else some o.parents)
  | none => Except.error (GExc.httpError "notFound")

/-- Outcome of the sub-request `service.files().get(fileId=oid)` with default
fields (id and name; no parents key). -/
def files_get (st : DriveState) (oid : String) : Except GExc RawMeta :=
  match st.lookup oid with
  | some o => Except.ok { id := o.id, name := o.name, parents := none }
  | none => Except.error (GExc.httpError "notFound")

/-- The raw metadata `files_get` reports for an id the backend resolves
(used only to state results). -/
def files_get_raw (st : DriveState) (oid : String) : RawMeta :=
  match st.lookup oid with
  | some o => { id := o.id, name := o.name, parents := none }
  | none => { id := "", name := "", parents := none }

/-- The parent-id list the backend holds for an object (used only to state
results; `files_get_parents` reports exactly this list, with the empty list
encoded as an absent key). -/
def parents_of (st : DriveState) (oid : String) : List String :=
  match st.lookup oid with
  | some o => o.parents
  | none => []

/-- The list comprehension `[raw_meta_to_file_meta(r) for r in raw_results]`
over batch responses; a `None` response would fail with a Python TypeError
(subscripting `None`), which is unreachable after a successful batch. -/
def metas_from_raws : List (Option RawMeta) → Except PyError (List FileMeta)
  | [] => Except.ok []
  | none :: _ => Except.error PyError.typeError
  | some r :: rest => do
    let ms ← metas_from_raws rest
    Except.ok (raw_meta_to_file_meta r :: ms)

/-- Embeds `IoAdapterGdrive.get_metas`: one batched `files().get` per id,
then translation to `FileMeta`.  A `files().get` response dict always carries
the id and name keys, so it is never falsy. -/
def get_metas (st : DriveState) (object_ids : List String) :
    Except PyError (List FileMeta) := do
  let raw_results ← gapi_batch_wrapper (fun _ => false)
    (object_ids.map (files_get st))
  metas_from_raws raw_results

/-- The check loop of `get_parent_folders`:
`parent_ids = response.get('parents', [])` — a `None` response (a failed
sub-request, or the falsy empty dict a zero-parent object's
`fields='parents'` query returns, stored as `None` by the batch callback)
fails here with an AttributeError; otherwise raise the integrity error unless
exactly one parent was reported. -/
def check_parents_loop : List (Option (Option (List String))) →
    Except PyError Unit
  | [] => Except.ok ()
  | none :: _ => Except.error PyError.attributeError
  | some p :: rest =>
    if (p.getD []).length ≠ 1 then Except.error PyError.integrityError
    else check_parents_loop rest

/-- The list comprehension `[response['parents'][0] for response in
response_objects]`: subscripting `None` is a TypeError, a missing key a
KeyError, an empty list an IndexError — all unreachable after the check loop. -/
def extract_first_parents : List (Option (Option (List String))) →
    Except PyError (List String)
  | [] => Except.ok []
  | none :: _ => Except.error PyError.typeError
  | some none :: _ => Except.error PyError.keyError
  | some (some []) :: _ => Except.error PyError.indexError
  | some (some (p :: _)) :: rest => do
    let ps ← extract_first_parents rest
    Except.ok (p :: ps)

/-- Embeds `IoAdapterGdrive.get_parent_folders`: a batched
`files().get(fileId, fields='parents')` per object id, the single-parent
check loop, then `get_metas` on the unique parent ids.  With
`fields='parents'`, a zero-parent object's response is the empty dict (the
`parents` key absent and no other field requested), which is falsy — the
batch callback stores it as `None`.  (The `time.sleep(0.5)` has no observable
effect and is elided.) -/
def get_parent_folders (st : DriveState) (object_ids : List String) :
    Except PyError (List FileMeta) := do
  let response_objects ← gapi_batch_wrapper (fun resp => resp.isNone)
    (object_ids.map (files_get_parents st))
  check_parents_loop response_objects
  let firsts ← extract_first_parents response_objects
  get_metas st firsts

/-- Embeds `IoAdapterBase.get_parent_folder`:
`self.get_parent_folders([object_id])[0]`. -/
def get_parent_folder (st : DriveState) (object_id : String) :
    Except PyError FileMeta := do
  let l ← get_parent_folders st [object_id]
  match l with
  | m :: _ => Except.ok m
  | [] => Except.error PyError.indexError

/-- Outcome of the chunked media download of `get_file_bytes`
(`files().get_media` driven by `MediaIoBaseDownload`): the object's bytes, or a
not-found client error when the id does not resolve. -/
def media_download (st : DriveState) (file_id : String) :
    Except GExc (List Nat) :=
  match st.lookup file_id with
  | some o => Except.ok o.content
  | none => Except.error (GExc.httpError "notFound")

/-- Embeds `IoAdapterGdrive.get_file_bytes`.  The body is a
`try: ... except Exception as e: raise_if_temporary_exception(e)`: when the
download raises a non-rate-limit exception, `raise_if_temporary_exception`
returns normally and the `except` block falls off the end of the function, so
Python returns `None` — hence the `Option` result type, with `none` for that
silent fall-through. -/
def get_file_bytes (st : DriveState) (file_id : String) :
    Except PyError (Option (List Nat)) :=
  match media_download st file_id with
  | .ok bs => Except.ok (some bs)
  | .error e =>
    match raise_if_temporary_exception e with
    | .error pe => Except.error pe
    | .ok () => Except.ok none

end IoAdapterGdrive

theorem filterMap_err_of_eq_nil {ρ : Type} (results : List (Except GExc ρ))
    (h : ∀ r ∈ results, err_of r = none) : results.filterMap err_of = [] := by
  induction results with
  | nil => rfl
  | cons r rest ih =>
    rw [List.filterMap_cons, h r (List.mem_cons_self _ _)]
    exact ih (fun x hx => h x (List.mem_cons_of_mem _ hx))

/-- A batch all of whose sub-requests succeed returns all collected
response entries. -/
theorem batch_all_ok {ρ : Type} (is_falsy : ρ → Bool)
    (results : List (Except GExc ρ))
    (h : ∀ r ∈ results, err_of r = none) :
    gapi_batch_wrapper is_falsy results =
      Except.ok (results.map (resp_entry is_falsy)) := by
  have hnil := filterMap_err_of_eq_nil results h
  simp [gapi_batch_wrapper, hnil, raise_temporaries, Bind.bind, Except.bind,
    pure, Except.pure]

/-- A batch of elementwise sub-requests that all succeed returns the mapped
response entries. -/
theorem batch_map_ok {σ ρ : Type} (is_falsy : ρ → Bool) (g : σ → ρ)
    (l : List σ) (f : σ → Except GExc ρ)
    (hf : ∀ x ∈ l, f x = Except.ok (g x)) :
    gapi_batch_wrapper is_falsy (l.map f) =
      Except.ok (l.map (fun x => resp_entry is_falsy (Except.ok (g x)))) := by
  have hall : ∀ r ∈ l.map f, err_of r = none := by
    intro r hr
    obtain ⟨x, hx, rfl⟩ := List.mem_map.mp hr
    rw [hf x hx]
    rfl
  rw [batch_all_ok _ _ hall, List.map_map]
  congr 1
  apply List.map_congr_left
  intro x hx
  simp only [Function.comp]
  rw [hf x hx]

namespace IoAdapterGdrive

/-- The parents entry `files_get_parents` reports for a resolving id: absent
key for a parentless object, the parent list otherwise. -/
def parents_report (st : DriveState) (oid : String) : Option (List String) :=
  if (parents_of st oid).isEmpty then none else some (parents_of st oid)

theorem files_get_parents_eq (st : DriveState) (oid : String)
    (h : (st.lookup oid).isSome) :
    files_get_parents st oid = Except.ok (parents_report st oid) := by
  unfold files_get_parents parents_report parents_of
  cases hl : st.lookup oid with
  | some o => simp [hl]
  | none => simp [hl] at h

theorem files_get_eq (st : DriveState) (oid : String)
    (h : (st.lookup oid).isSome) :
    files_get st oid = Except.ok (files_get_raw st oid) := by
  unfold files_get files_get_raw
  cases hl : st.lookup oid with
  | some o => simp [hl]
  | none => simp [hl] at h

theorem parents_report_getD (st : DriveState) (oid : String) :
    (parents_report st oid).getD [] = parents_of st oid := by
  unfold parents_report
  by_cases h : (parents_of st oid).isEmpty
  · simp [h, List.isEmpty_iff.mp h]
  · simp [h]

theorem check_loop_on_some (ps : List (Option (List String))) :
    check_parents_loop (ps.map some) =
      (if ps.all (fun p => (p.getD []).length == 1) then Except.ok ()
       else Except.error PyError.integrityError) := by
  induction ps with
  | nil => rfl
  | cons p rest ih =>
    simp only [List.map_cons, check_parents_loop, List.all_cons]
    by_cases h : (p.getD []).length = 1
    · simp [h, ih]
    · simp [h]

theorem extract_on_single (ps : List (Option (List String)))
    (h : ∀ p ∈ ps, (p.getD []).length = 1) :
    extract_first_parents (ps.map some) =
      Except.ok (ps.map (fun p => (p.getD []).headD "")) := by
  induction ps with
  | nil => rfl
  | cons p rest ih =>
    have hp := h p (List.mem_cons_self _ _)
    match p with
    | none => simp at hp
    | some [] => simp at hp
    | some (a :: l) =>
      have hl : l = [] := by simpa using hp
      subst hl
      simp only [List.map_cons, extract_first_parents]
      rw [ih (fun x hx => h x (List.mem_cons_of_mem _ hx))]
      simp [Bind.bind, Except.bind]

theorem metas_from_raws_on_some (rs : List RawMeta) :
    metas_from_raws (rs.map some) = Except.ok (rs.map raw_meta_to_file_meta) := by
  induction rs with
  | nil => rfl
  | cons r rest ih => simp [metas_from_raws, ih, Bind.bind, Except.bind]

theorem get_metas_ok (st : DriveState) (ids : List String)
    (h : ∀ oid ∈ ids, (st.lookup oid).isSome) :
    get_metas st ids = Except.ok (ids.map (fun oid =>
      raw_meta_to_file_meta (files_get_raw st oid))) := by
  have hbatch := batch_map_ok (fun _ => false) (files_get_raw st) ids
    (files_get st) (fun oid hoid => files_get_eq st oid (h oid hoid))
  simp only [get_metas, hbatch, Bind.bind, Except.bind]
  have hsome : ids.map (fun oid =>
      resp_entry (fun _ => false) (Except.ok (files_get_raw st oid))) =
      (ids.map (files_get_raw st)).map some := by
    rw [List.map_map]
    rfl
  rw [hsome, metas_from_raws_on_some, List.map_map]
  rfl

/-- The entry the batch callback stores for a resolving object's
`fields='parents'` response: `None` for the falsy empty dict reported for a
zero-parent object, the response itself otherwise. -/
def parents_entry (st : DriveState) (oid : String) :
    Option (Option (List String)) :=
  if (parents_of st oid).isEmpty then none
  else some (some (parents_of st oid))

theorem resp_entry_parents (st : DriveState) (oid : String) :
    resp_entry (fun resp => resp.isNone) (Except.ok (parents_report st oid)) =
      parents_entry st oid := by
  by_cases h : (parents_of st oid).isEmpty <;>
    simp [resp_entry, parents_report, parents_entry, h]

theorem parents_entry_of_one (st : DriveState) (oid : String)
    (h : parents_of st oid ≠ []) :
    parents_entry st oid = some (some (parents_of st oid)) := by
  simp [parents_entry, List.isEmpty_iff, h]

theorem parents_entry_of_zero (st : DriveState) (oid : String)
    (h : parents_of st oid = []) :
    parents_entry st oid = none := by
  simp [parents_entry, List.isEmpty_iff, h]

theorem gpf_resp_batch (st : DriveState) (object_ids : List String)
    (hres : ∀ oid ∈ object_ids, (st.lookup oid).isSome) :
    gapi_batch_wrapper (fun resp => resp.isNone)
      (object_ids.map (files_get_parents st)) =
      Except.ok (object_ids.map (parents_entry st)) := by
  have h := batch_map_ok (fun resp => resp.isNone) (parents_report st)
    object_ids (files_get_parents st)
    (fun oid hoid => files_get_parents_eq st oid (hres oid hoid))
  rw [h]
  congr 1
  apply List.map_congr_left
  intro oid hoid
  exact resp_entry_parents st oid

theorem entries_all_some (st : DriveState) (object_ids : List String)
    (h : ∀ oid ∈ object_ids, parents_of st oid ≠ []) :
    object_ids.map (parents_entry st) =
      (object_ids.map (fun oid => some (parents_of st oid))).map some := by
  rw [List.map_map]
  apply List.map_congr_left
  intro oid hoid
  simp only [Function.comp]
  exact parents_entry_of_one st oid (h oid hoid)

theorem check_loop_attr (l : List (Option (Option (List String))))
    (h1 : ∀ x ∈ l, x = none ∨ ∃ p, x = some p ∧ (p.getD []).length = 1)
    (h2 : ∃ x ∈ l, x = none) :
    check_parents_loop l = Except.error PyError.attributeError := by
  induction l with
  | nil => simp at h2
  | cons x rest ih =>
    rcases h1 x (List.mem_cons_self _ _) with hx | ⟨p, hxp, hp⟩
    · subst hx
      rfl
    · subst hxp
      simp only [check_parents_loop]
      rw [if_neg (by simp [hp])]
      apply ih (fun y hy => h1 y (List.mem_cons_of_mem _ hy))
      obtain ⟨y, hy, hyn⟩ := h2
      rcases List.mem_cons.mp hy with rfl | hy2
      · exact absurd hyn (by simp)
      · exact ⟨y, hy2, hyn⟩

theorem gpf_integrity (st : DriveState) (object_ids : List String)
    (hres : ∀ oid ∈ object_ids, (st.lookup oid).isSome)
    (hpos : ∀ oid ∈ object_ids, parents_of st oid ≠ [])
    (hbad : ∃ oid ∈ object_ids, (parents_of st oid).length ≠ 1) :
    get_parent_folders st object_ids = Except.error PyError.integrityError := by
  have hbatch := gpf_resp_batch st object_ids hres
  simp only [get_parent_folders, hbatch, Bind.bind, Except.bind]
  rw [entries_all_some st object_ids hpos, check_loop_on_some]
  have hfalse : (object_ids.map (fun oid => some (parents_of st oid))).all
      (fun p => (p.getD []).length == 1) = false := by
    rw [List.all_eq_false]
    obtain ⟨oid, hmem, hlen⟩ := hbad
    refine ⟨some (parents_of st oid), List.mem_map_of_mem _ hmem, ?_⟩
    simp [hlen]
  rw [hfalse]
  rfl

theorem gpf_attr (st : DriveState) (object_ids : List String)
    (hres : ∀ oid ∈ object_ids, (st.lookup oid).isSome)
    (hmix : ∀ oid ∈ object_ids, (parents_of st oid).length = 1 ∨
      parents_of st oid = [])
    (hzero : ∃ oid ∈ object_ids, parents_of st oid = []) :
    get_parent_folders st object_ids =
      Except.error PyError.attributeError := by
  have hbatch := gpf_resp_batch st object_ids hres
  simp only [get_parent_folders, hbatch, Bind.bind, Except.bind]
  have h1 : ∀ x ∈ object_ids.map (parents_entry st), x = none ∨
      ∃ p, x = some p ∧ (p.getD []).length = 1 := by
    intro x hx
    obtain ⟨oid, hmem, rfl⟩ := List.mem_map.mp hx
    rcases hmix oid hmem with hone | hzero2
    · right
      have hne : parents_of st oid ≠ [] := by
        intro hc
        rw [hc] at hone
        simp at hone
      exact ⟨some (parents_of st oid), parents_entry_of_one st oid hne,
        by simpa using hone⟩
    · left
      exact parents_entry_of_zero st oid hzero2
  have h2 : ∃ x ∈ object_ids.map (parents_entry st), x = none := by
    obtain ⟨oid, hmem, h0⟩ := hzero
    exact ⟨parents_entry st oid, List.mem_map_of_mem _ hmem,
      parents_entry_of_zero st oid h0⟩
  rw [check_loop_attr _ h1 h2]

theorem gpf_ok (st : DriveState) (object_ids : List String)
    (hres : ∀ oid ∈ object_ids, (st.lookup oid).isSome)
    (hgood : ∀ oid ∈ object_ids, (parents_of st oid).length = 1 ∧
      (st.lookup ((parents_of st oid).headD "")).isSome) :
    get_parent_folders st object_ids = Except.ok (object_ids.map (fun oid =>
      raw_meta_to_file_meta (files_get_raw st
        ((parents_of st oid).headD "")))) := by
  have hpos : ∀ oid ∈ object_ids, parents_of st oid ≠ [] := by
    intro oid hmem hc
    have hone := (hgood oid hmem).1
    rw [hc] at hone
    simp at hone
  have hbatch := gpf_resp_batch st object_ids hres
  simp only [get_parent_folders, hbatch, Bind.bind, Except.bind]
  rw [entries_all_some st object_ids hpos, check_loop_on_some]
  have hall : (object_ids.map (fun oid => some (parents_of st oid))).all
      (fun p => (p.getD []).length == 1) = true := by
    rw [List.all_eq_true]
    intro p hp
    obtain ⟨oid, hmem, rfl⟩ := List.mem_map.mp hp
    simp [(hgood oid hmem).1]
  rw [hall]
  have hone : ∀ p ∈ object_ids.map (fun oid => some (parents_of st oid)),
      (p.getD []).length = 1 := by
    intro p hp
    obtain ⟨oid, hmem, rfl⟩ := List.mem_map.mp hp
    simpa using (hgood oid hmem).1
  simp only [if_true]
  show Except.bind (extract_first_parents
    ((object_ids.map (fun oid => some (parents_of st oid))).map some)) _ = _
  rw [extract_on_single _ hone]
  have hfirsts : (object_ids.map (fun oid => some (parents_of st oid))).map
      (fun p => (p.getD []).headD "") =
      object_ids.map (fun oid => (parents_of st oid).headD "") := by
    rw [List.map_map]
    apply List.map_congr_left
    intro oid hoid
    simp [Function.comp]
  rw [hfirsts]
  have hres2 : ∀ pid ∈ object_ids.map (fun oid => (parents_of st oid).headD ""),
      (st.lookup pid).isSome := by
    intro pid hpid
    obtain ⟨oid, hmem, rfl⟩ := List.mem_map.mp hpid
    exact (hgood oid hmem).2
  show Except.bind (Except.ok _) _ = _
  simp only [Except.bind]
  rw [get_metas_ok st _ hres2, List.map_map]
  rfl

end IoAdapterGdrive

/-- A small concrete backend: a root folder, an object `A` with exactly one
parent, an object `B` with zero parents, and an object `C` with two
parents. -/
def drive_state_ex : DriveState :=
  { objects :=
      [ { id := "root", name := "My Drive", parents := [], isFolder := true,
          content := [], trashed := false },
        { id := "A", name := "a.txt", parents := ["root"], isFolder := false,
          content := [1, 2], trashed := false },
        { id := "B", name := "b.txt", parents := [], isFolder := false,
          content := [], trashed := false },
        { id := "C", name := "c.txt", parents := ["root", "A"],
          isFolder := false, content := [], trashed := false } ],
    next_id := 0 }

/-- C1 counterexample: for an object whose backend report contains zero
parent ids, `get_parent_folders` does not raise the integrity error claimed —
the zero-parent `fields='parents'` response is the falsy empty dict, stored as
`None` by the batch callback, and `response.get('parents', [])` fails with an
AttributeError before the single-parent check can raise. -/
theorem C1_parent_folder_counterexample :
    IoAdapterGdrive.get_parent_folders drive_state_ex ["B"] =
      Except.error PyError.attributeError ∧
    PyError.attributeError ≠ PyError.integrityError := by
  constructor
  · rfl
  · decide

/-- C1 (amended): for the remote-drive adapter, when every queried object
reports at least one parent and some object reports two or more,
`get_parent_folders` raises the integrity error; when some object reports
zero parents (and the others exactly one), the zero-parent object's empty
report is coerced to `None` by the batch callback and the check loop raises
an AttributeError instead of the integrity error; and when every object
reports exactly one parent, the metadata of each unique parent folder is
returned.  On a single id, `get_parent_folder` raises AttributeError for a
zero-parent report, the integrity error for a two-or-more-parent report, and
returns the unique parent's metadata otherwise. -/
theorem C1_parent_folder_amended (st : DriveState) (object_ids : List String)
    (object_id : String) :
    ((∀ oid ∈ object_ids, (st.lookup oid).isSome) →
      (∀ oid ∈ object_ids, IoAdapterGdrive.parents_of st oid ≠ []) →
      (∃ oid ∈ object_ids, (IoAdapterGdrive.parents_of st oid).length ≠ 1) →
      IoAdapterGdrive.get_parent_folders st object_ids =
        Except.error PyError.integrityError) ∧
    ((∀ oid ∈ object_ids, (st.lookup oid).isSome) →
      (∀ oid ∈ object_ids, (IoAdapterGdrive.parents_of st oid).length = 1 ∨
        IoAdapterGdrive.parents_of st oid = []) →
      (∃ oid ∈ object_ids, IoAdapterGdrive.parents_of st oid = []) →
      IoAdapterGdrive.get_parent_folders st object_ids =
        Except.error PyError.attributeError) ∧
    ((∀ oid ∈ object_ids, (st.lookup oid).isSome) →
      (∀ oid ∈ object_ids, (IoAdapterGdrive.parents_of st oid).length = 1 ∧
        (st.lookup ((IoAdapterGdrive.parents_of st oid).headD "")).isSome) →
      IoAdapterGdrive.get_parent_folders st object_ids =
        Except.ok (object_ids.map (fun oid => raw_meta_to_file_meta
          (IoAdapterGdrive.files_get_raw st
            ((IoAdapterGdrive.parents_of st oid).headD ""))))) ∧
    ((st.lookup object_id).isSome →
      IoAdapterGdrive.parents_of st object_id = [] →
      IoAdapterGdrive.get_parent_folder st object_id =
        Except.error PyError.attributeError) ∧
    ((st.lookup object_id).isSome →
      2 ≤ (IoAdapterGdrive.parents_of st object_id).length →
      IoAdapterGdrive.get_parent_folder st object_id =
        Except.error PyError.integrityError) ∧
    ((st.lookup object_id).isSome →
      (IoAdapterGdrive.parents_of st object_id).length = 1 →
      (st.lookup ((IoAdapterGdrive.parents_of st object_id).headD "")).isSome →
      IoAdapterGdrive.get_parent_folder st object_id =
        Except.ok (raw_meta_to_file_meta (IoAdapterGdrive.files_get_raw st
          ((IoAdapterGdrive.parents_of st object_id).headD "")))) := by
  refine ⟨IoAdapterGdrive.gpf_integrity st object_ids,
    IoAdapterGdrive.gpf_attr st object_ids,
    IoAdapterGdrive.gpf_ok st object_ids,
    fun h1 h2 => ?_, fun h1 h2 => ?_, fun h1 h2 h3 => ?_⟩
  · have h := IoAdapterGdrive.gpf_attr st [object_id]
      (by simpa using h1)
      (fun oid hoid => by
        rcases List.mem_singleton.mp hoid with rfl
        exact Or.inr h2)
      ⟨object_id, List.mem_singleton_self _, h2⟩
    simp [IoAdapterGdrive.get_parent_folder, h, Bind.bind, Except.bind]
  · have hne : IoAdapterGdrive.parents_of st object_id ≠ [] := by
      intro hc
      rw [hc] at h2
      simp at h2
    have h := IoAdapterGdrive.gpf_integrity st [object_id]
      (by simpa using h1)
      (fun oid hoid => by
        rcases List.mem_singleton.mp hoid with rfl
        exact hne)
      ⟨object_id, List.mem_singleton_self _, by omega⟩
    simp [IoAdapterGdrive.get_parent_folder, h, Bind.bind, Except.bind]
  · have h := IoAdapterGdrive.gpf_ok st [object_id]
      (by simpa using h1)
      (fun oid hoid => by
        rcases List.mem_singleton.mp hoid with rfl
        exact ⟨h2, h3⟩)
    simp [IoAdapterGdrive.get_parent_folder, h, Bind.bind, Except.bind]

/-- Witness for C1's amended statement on a concrete backend: exactly one
reported parent returns the parent's metadata, a zero-parent report raises
AttributeError, and a two-parent report raises the integrity error. -/
theorem C1_parent_folder_amended_witness :
    IoAdapterGdrive.get_parent_folders drive_state_ex ["A"] =
      Except.ok [raw_meta_to_file_meta
        { id := "root", name := "My Drive", parents := none }] ∧
    IoAdapterGdrive.get_parent_folder drive_state_ex "B" =
      Except.error PyError.attributeError ∧
    IoAdapterGdrive.get_parent_folder drive_state_ex "C" =
      Except.error PyError.integrityError := by
  refine ⟨?_, ?_, ?_⟩
  · have h := (C1_parent_folder_amended drive_state_ex ["A"] "B").2.2.1
      (by decide) (by decide)
    simpa using h
  · exact (C1_parent_folder_amended drive_state_ex ["A"] "B").2.2.2.1
      (by decide) (by decide)
  · exact (C1_parent_folder_amended drive_state_ex ["A"] "C").2.2.2.2.1
      (by decide) (by decide)

/-- C4 evidence: the remote-drive `get_file_bytes` wraps the download in a
`try` whose `except` block calls `raise_if_temporary_exception` and then falls
off the end of the function, so a non-rate-limit failure (here: an id the
backend does not resolve, a 404) makes the call return `None` silently instead
of raising an error; a resolving id returns the object's bytes. -/
theorem C4_get_file_bytes_silent_none :
    IoAdapterGdrive.get_file_bytes { objects := [], next_id := 0 } "missing" =
      Except.ok none ∧
    IoAdapterGdrive.get_file_bytes drive_state_ex "A" =
      Except.ok (some [1, 2]) := by
  constructor
  · rfl
  · rfl

namespace IoAdapterGdrive

/-- The f-string interpolation of a metadata name into a query
(`None` becomes the four-character string). -/
def folder_query_name (folder_meta : FileMeta) : String :=
  match folder_meta.name with
  | some s => s
  | none => "None"

/-- The objects a children list query matches: in the given parent, of the
given name, not trashed, and (when requested) of folder mime type. -/
def matching_children (st : DriveState) (parent_folder_id nm : String)
    (is_folder : Bool) : List DriveObject :=
  st.objects.filter (fun o =>
    o.parents.contains parent_folder_id && o.name == nm && !o.trashed &&
    (!is_folder || o.isFolder))

/-- A listing entry with fields `id, name, parents` (the parents key is absent
for a parentless object). -/
def raw_of_listing (o : DriveObject) : RawMeta :=
  { id := o.id, name := o.name,
    parents := if o.parents.isEmpty then none else some o.parents }

/-- Outcome of the sub-request `files().list(q=..., fields='nextPageToken,
files(id, name, parents)')` of `get_object_in_folder_ids`. -/
def files_list_query (st : DriveState) (parent_folder_id nm : String)
    (is_folder : Bool) : Except GExc (List RawMeta) :=
  Except.ok ((matching_children st parent_folder_id nm is_folder).map
    raw_of_listing)

/-- The result loop of `get_object_in_folder_ids`: the first listed file of
each response, translated to `FileMeta`, or `None` when the response listed no
files.  A `None` response would fail with an AttributeError, unreachable after
a successful batch. -/
def first_file_results : List (Option (List RawMeta)) →
    Except PyError (List (Option FileMeta))
  | [] => Except.ok []
  | none :: _ => Except.error PyError.attributeError
  | some rs :: rest => do
    let tail ← first_file_results rest
    Except.ok ((match rs with
      | r :: _ => some (raw_meta_to_file_meta r)
      | [] => none) :: tail)

/-- Embeds `IoAdapterGdrive.get_object_in_folder_ids`: an elementwise batch of
children list queries, then the first match (or `None`) per element.  A
`files().list` response dict always carries at least its `files` and `kind`
keys — also when no file matched — so it is never falsy. -/
def get_object_in_folder_ids (st : DriveState)
    (parent_folder_ids : List String) (metas : List FileMeta)
    (is_folder : Bool) : Except PyError (List (Option FileMeta)) := do
  let raw_results ← gapi_batch_wrapper (fun _ => false)
    ((parent_folder_ids.zip metas).map
      (fun pm => files_list_query st pm.1 (folder_query_name pm.2) is_folder))
  first_file_results raw_results

/-- Embeds `IoAdapterGdrive.get_subfolder`:
`get_object_in_folder_ids([parent], [meta], is_folder=True)[0]`. -/
def get_subfolder (st : DriveState) (parent_folder_id : String)
    (folder_meta : FileMeta) : Except PyError (Option FileMeta) := do
  let l ← get_object_in_folder_ids st [parent_folder_id] [folder_meta] true
  match l with
  | r :: _ => Except.ok r
  | [] => Except.error PyError.indexError

/-- Embeds `IoAdapterGdrive.create_subfolder` without a delegate creation
adapter (`io_create is None`): `files().create` with folder mime type under the
given parent.  The service assigns the next fresh id; a `None` name in the
request body is replaced by the provider's default name. -/
def create_subfolder (st : DriveState) (parent_folder_id : String)
    (folder_meta : FileMeta) : DriveState × FileMeta :=
  let new_id := st.fresh_id
  let new_name := folder_meta.name.getD "Untitled"
  let obj : DriveObject :=
    { id := new_id, name := new_name, parents := [parent_folder_id],
      isFolder := true, content := [], trashed := false }
  ({ objects := st.objects ++ [obj], next_id := st.next_id + 1 },
   raw_meta_to_file_meta { id := new_id, name := new_name, parents := none })

/-- Embeds `IoAdapterGdrive.get_or_create_subfolder`: look up the child by
name, and create it only when absent (a dataclass instance is always truthy,
so the `if subfolder_meta:` test is exactly the `some`/`none` split). -/
def get_or_create_subfolder (st : DriveState) (parent_folder_id : String)
    (folder_meta : FileMeta) : Except PyError (DriveState × FileMeta) := do
  let subfolder_meta ← get_subfolder st parent_folder_id folder_meta
  match subfolder_meta with
  | some m => Except.ok (st, m)
  | none => Except.ok (create_subfolder st parent_folder_id folder_meta)

/-- The page-one name search of `overwrite_file_bytes`:
`files().list(q="'folder' in parents and name = '...' and trashed = false",
pageSize=1)`, with default fields (no parents key). -/
def files_list_by_name (st : DriveState) (folder_id nm : String) :
    List RawMeta :=
  ((st.objects.filter (fun o =>
    o.parents.contains folder_id && o.name == nm && !o.trashed)).map
      (fun o => { id := o.id, name := o.name, parents := none })).take 1

/-- Outcome of `files().update(fileId=fid, body={'name': name},
media_body=media)`: replaces the object's content and (when the body carries a
non-null name) its name, and reports the updated id and name. -/
def update_object (st : DriveState) (fid : String) (nm : Option String)
    (file_bytes : List Nat) : Except GExc (DriveState × RawMeta) :=
  match st.lookup fid with
  | none => Except.error (GExc.httpError "notFound")
  | some o =>
    let new_name := nm.getD o.name
    let o' : DriveObject :=
      { o with name := new_name, content := file_bytes }
    Except.ok
      ({ st with objects :=
          st.objects.map (fun x => if x.id == fid then o' else x) },
       { id := fid, name := new_name, parents := none })

/-- Outcome of `files().create(body={'name': name, 'parents': [folder]},
media_body=media)`: a new object with a fresh id (a null name falls back to
the provider's default name). -/
def create_object (st : DriveState) (folder_id : String) (nm : Option String)
    (file_bytes : List Nat) : DriveState × RawMeta :=
  let new_id := st.fresh_id
  let new_name := nm.getD "Untitled"
  let obj : DriveObject :=
    { id := new_id, name := new_name, parents := [folder_id],
      isFolder := false, content := file_bytes, trashed := false }
  ({ objects := st.objects ++ [obj], next_id := st.next_id + 1 },
   { id := new_id, name := new_name, parents := none })

/-- Embeds `IoAdapterGdrive.overwrite_file_bytes` without a delegate creation
adapter: if `file_meta.id` is set, update that object; otherwise search the
target folder by name (first page-one hit) and update the hit, or create a new
object in the folder when there is none.  The response is translated back to
`FileMeta`. -/
def overwrite_file_bytes (st : DriveState) (folder_id : String)
    (file_meta : FileMeta) (file_bytes : List Nat) :
    Except PyError (DriveState × FileMeta) :=
  let file_id : Option String :=
    match file_meta.id with
    | some fid => some fid
    | none =>
      match files_list_by_name st folder_id (folder_query_name file_meta) with
      | r :: _ => some r.id
      | [] => none
  match file_id with
  | none =>
    let created := create_object st folder_id file_meta.name file_bytes
    Except.ok (created.1, raw_meta_to_file_meta created.2)
  | some fid =>
    match update_object st fid file_meta.name file_bytes with
    | .ok updated => Except.ok (updated.1, raw_meta_to_file_meta updated.2)
    | .error e => Except.error (PyError.gerror e)

/-- A creation request assembled into `batch_queries` by `create_subfolders`
(built, but never executed). -/
structure CreateFolderQuery where
  name : String
  parent : String
deriving DecidableEq, Repr

/-- Python call protocol: a call that omits one of a function's required
positional parameters raises a TypeError before the function body runs. -/
def call_missing_required_argument {α : Type} : Except PyError α :=
  Except.error PyError.typeError

/-- Embeds `IoAdapterGdrive.create_subfolders` without a delegate creation
adapter: the per-pair creation requests are assembled into `batch_queries`,
but the source then calls `gapi_batch_wrapper(self.service)`, omitting the
required `query_objects` parameter — the assembled queries are never passed,
and the call raises a TypeError before any request is issued. -/
def create_subfolders (st : DriveState) (parent_folder_ids : List String)
    (folder_names : List String) :
    Except PyError (DriveState × List FileMeta) := do
  let batch_queries := (parent_folder_ids.zip folder_names).map
    (fun pn => ({ name := pn.2, parent := pn.1 } : CreateFolderQuery))
  let responses ← (call_missing_required_argument :
    Except PyError (List (Option RawMeta)))
  let metas ← metas_from_raws responses
  let _ := batch_queries
  Except.ok (st, metas)

end IoAdapterGdrive

namespace IoAdapterGdrive

theorem get_subfolder_eq (st : DriveState) (parent_folder_id : String)
    (folder_meta : FileMeta) :
    get_subfolder st parent_folder_id folder_meta = Except.ok
      (match matching_children st parent_folder_id
          (folder_query_name folder_meta) true with
       | o :: _ => some (raw_meta_to_file_meta (raw_of_listing o))
       | [] => none) := by
  cases h : matching_children st parent_folder_id
      (folder_query_name folder_meta) true with
  | nil =>
    simp [get_subfolder, get_object_in_folder_ids, files_list_query, h,
      gapi_batch_wrapper, resp_entry, raise_temporaries, err_of,
      first_file_results, Bind.bind, Except.bind, pure, Except.pure, List.zip]
  | cons o rest =>
    simp [get_subfolder, get_object_in_folder_ids, files_list_query, h,
      gapi_batch_wrapper, resp_entry, raise_temporaries, err_of,
      first_file_results, Bind.bind, Except.bind, pure, Except.pure, List.zip]

theorem gdrive_idem (st : DriveState) (parent_folder_id : String)
    (folder_meta : FileMeta) (nm : String) (st1 : DriveState) (m1 : FileMeta)
    (hname : folder_meta.name = some nm)
    (h : get_or_create_subfolder st parent_folder_id folder_meta =
      Except.ok (st1, m1)) :
    ∃ st2 m2, get_or_create_subfolder st1 parent_folder_id folder_meta =
      Except.ok (st2, m2) ∧ m2.id = m1.id := by
  have hq : folder_query_name folder_meta = nm := by
    simp [folder_query_name, hname]
  cases hmc : matching_children st parent_folder_id
      (folder_query_name folder_meta) true with
  | cons o rest =>
    rw [get_or_create_subfolder, get_subfolder_eq, hmc] at h
    simp [Bind.bind, Except.bind] at h
    obtain ⟨h1, h2⟩ := h
    subst h1
    refine ⟨st, m1, ?_, rfl⟩
    rw [get_or_create_subfolder, get_subfolder_eq, hmc]
    simp [Bind.bind, Except.bind, h2]
  | nil =>
    rw [get_or_create_subfolder, get_subfolder_eq, hmc] at h
    simp [Bind.bind, Except.bind, create_subfolder] at h
    obtain ⟨h1, h2⟩ := h
    have hmc1 : matching_children st1 parent_folder_id
        (folder_query_name folder_meta) true =
        [{ id := st.fresh_id, name := folder_meta.name.getD "Untitled",
           parents := [parent_folder_id], isFolder := true, content := [],
           trashed := false }] := by
      rw [← h1]
      unfold matching_children at hmc ⊢
      rw [List.filter_append, hmc]
      simp [hname, hq]
    refine ⟨st1, raw_meta_to_file_meta (raw_of_listing
      { id := st.fresh_id, name := folder_meta.name.getD "Untitled",
        parents := [parent_folder_id], isFolder := true, content := [],
        trashed := false }), ?_, ?_⟩
    · rw [get_or_create_subfolder, get_subfolder_eq, hmc1]
      simp [Bind.bind, Except.bind]
    · rw [← h2]
      simp [raw_meta_to_file_meta, raw_of_listing, create_subfolder]

end IoAdapterGdrive

/-- The state of a path-backed store (local disk, or a cloud path tree): the
set of existing directories and the files with their contents.  Only the
target directory's existence is observable to the operations modelled here, so
the ancestors implicitly created by `mkdir(parents=True)` are elided. -/
structure FsState where
  dirs : List String
  files : List (String × List Nat)
deriving DecidableEq, Repr

/-- Path concatenation `Path(dir) / name`. -/
def path_join (dir nm : String) : String := dir ++ "/" ++ nm

/-- Scanning for a path's last component: the text after the final slash. -/
def last_component : List Char → List Char → List Char
  | [], acc => acc.reverse
  | c :: cs, acc =>
    if c = '/' then last_component cs [] else last_component cs (c :: acc)

/-- The `.name` of a path: its last component. -/
def base_name (p : String) : String := String.mk (last_component p.data [])

/-- Writing a file (`write_bytes`): replaces any previous content at the
path. -/
def FsState.write_file (fs : FsState) (p : String) (bs : List Nat) : FsState :=
  { fs with files := fs.files.filter (fun f => f.1 ≠ p) ++ [(p, bs)] }

namespace IoAdapterPath

/-- Embeds `IoAdapterPath.get_or_create_subfolder`: joins the parent path and
the folder name (a `None` name fails with a TypeError in the join), creates
the directory unless it already is one (a plain file at that path makes
`mkdir` fail), and returns metadata whose id is the joined path. -/
def get_or_create_subfolder (fs : FsState) (parent_folder_id : String)
    (folder_meta : FileMeta) : Except PyError (FsState × FileMeta) :=
  match folder_meta.name with
  | none => Except.error PyError.typeError
  | some nm =>
    let dir_subfolder := path_join parent_folder_id nm
    let meta : FileMeta :=
      { id := some dir_subfolder, name := some (base_name dir_subfolder) }
    if fs.dirs.contains dir_subfolder then Except.ok (fs, meta)
    else if fs.files.any (fun f => f.1 == dir_subfolder) then
      Except.error PyError.fileExistsError
    else Except.ok ({ fs with dirs := fs.dirs ++ [dir_subfolder] }, meta)

end IoAdapterPath

namespace IoAdapterCloudPath

/-- Embeds `IoAdapterCloudPath.get_or_create_subfolder`: textually the same
operation as the local-path variant, against the cloud path tree. -/
def get_or_create_subfolder (fs : FsState) (parent_folder_id : String)
    (folder_meta : FileMeta) : Except PyError (FsState × FileMeta) :=
  match folder_meta.name with
  | none => Except.error PyError.typeError
  | some nm =>
    let dir_subfolder := path_join parent_folder_id nm
    let meta : FileMeta :=
      { id := some dir_subfolder, name := some (base_name dir_subfolder) }
    if fs.dirs.contains dir_subfolder then Except.ok (fs, meta)
    else if fs.files.any (fun f => f.1 == dir_subfolder) then
      Except.error PyError.fileExistsError
    else Except.ok ({ fs with dirs := fs.dirs ++ [dir_subfolder] }, meta)

end IoAdapterCloudPath

theorem path_idem (fs : FsState) (parent_folder_id : String)
    (folder_meta : FileMeta) (fs1 : FsState) (m1 : FileMeta)
    (h : IoAdapterPath.get_or_create_subfolder fs parent_folder_id
      folder_meta = Except.ok (fs1, m1)) :
    ∃ fs2 m2, IoAdapterPath.get_or_create_subfolder fs1 parent_folder_id
      folder_meta = Except.ok (fs2, m2) ∧ m2.id = m1.id := by
  cases hname : folder_meta.name with
  | none => simp [IoAdapterPath.get_or_create_subfolder, hname] at h
  | some nm =>
    simp only [IoAdapterPath.get_or_create_subfolder, hname] at h ⊢
    by_cases hdir : fs.dirs.contains (path_join parent_folder_id nm)
    · rw [if_pos hdir] at h
      simp only [Except.ok.injEq, Prod.mk.injEq] at h
      obtain ⟨h1, h2⟩ := h
      subst h1
      rw [if_pos hdir]
      exact ⟨fs, m1, by rw [h2], rfl⟩
    · rw [if_neg hdir] at h
      by_cases hfile : fs.files.any
          (fun f => f.1 == path_join parent_folder_id nm)
      · rw [if_pos hfile] at h
        simp at h
      · rw [if_neg hfile] at h
        simp only [Except.ok.injEq, Prod.mk.injEq] at h
        obtain ⟨h1, h2⟩ := h
        have hdir1 : fs1.dirs.contains (path_join parent_folder_id nm) := by
          rw [← h1]
          simp
        rw [if_pos hdir1]
        exact ⟨fs1, _, rfl, by rw [← h2]⟩

theorem cloud_idem (fs : FsState) (parent_folder_id : String)
    (folder_meta : FileMeta) (fs1 : FsState) (m1 : FileMeta)
    (h : IoAdapterCloudPath.get_or_create_subfolder fs parent_folder_id
      folder_meta = Except.ok (fs1, m1)) :
    ∃ fs2 m2, IoAdapterCloudPath.get_or_create_subfolder fs1 parent_folder_id
      folder_meta = Except.ok (fs2, m2) ∧ m2.id = m1.id := by
  cases hname : folder_meta.name with
  | none => simp [IoAdapterCloudPath.get_or_create_subfolder, hname] at h
  | some nm =>
    simp only [IoAdapterCloudPath.get_or_create_subfolder, hname] at h ⊢
    by_cases hdir : fs.dirs.contains (path_join parent_folder_id nm)
    · rw [if_pos hdir] at h
      simp only [Except.ok.injEq, Prod.mk.injEq] at h
      obtain ⟨h1, h2⟩ := h
      subst h1
      rw [if_pos hdir]
      exact ⟨fs, m1, by rw [h2], rfl⟩
    · rw [if_neg hdir] at h
      by_cases hfile : fs.files.any
          (fun f => f.1 == path_join parent_folder_id nm)
      · rw [if_pos hfile] at h
        simp at h
      · rw [if_neg hfile] at h
        simp only [Except.ok.injEq, Prod.mk.injEq] at h
        obtain ⟨h1, h2⟩ := h
        have hdir1 : fs1.dirs.contains (path_join parent_folder_id nm) := by
          rw [← h1]
          simp
        rw [if_pos hdir1]
        exact ⟨fs1, _, rfl, by rw [← h2]⟩

/-- C5: for all three adapter variants and all parent folder ids and named
folder metadata, `get_or_create_subfolder` is idempotent in the absence of
concurrent creation: when a first call succeeds, a second call with the same
parent and folder name also succeeds and returns metadata with the same id
(the second call finds the child created or found by the first call by exact
name match and does not create a duplicate). -/
theorem C5_get_or_create_subfolder_idempotent (fs : FsState)
    (st : DriveState) (parent_folder_id : String) (folder_meta : FileMeta)
    (nm : String) :
    (∀ fs1 m1, IoAdapterPath.get_or_create_subfolder fs parent_folder_id
        folder_meta = Except.ok (fs1, m1) →
      ∃ fs2 m2, IoAdapterPath.get_or_create_subfolder fs1 parent_folder_id
        folder_meta = Except.ok (fs2, m2) ∧ m2.id = m1.id) ∧
    (∀ fs1 m1, IoAdapterCloudPath.get_or_create_subfolder fs parent_folder_id
        folder_meta = Except.ok (fs1, m1) →
      ∃ fs2 m2, IoAdapterCloudPath.get_or_create_subfolder fs1
        parent_folder_id folder_meta = Except.ok (fs2, m2) ∧ m2.id = m1.id) ∧
    (folder_meta.name = some nm →
      ∀ st1 m1, IoAdapterGdrive.get_or_create_subfolder st parent_folder_id
        folder_meta = Except.ok (st1, m1) →
      ∃ st2 m2, IoAdapterGdrive.get_or_create_subfolder st1 parent_folder_id
        folder_meta = Except.ok (st2, m2) ∧ m2.id = m1.id) := by
  refine ⟨fun fs1 m1 h => path_idem fs parent_folder_id folder_meta fs1 m1 h,
    fun fs1 m1 h => cloud_idem fs parent_folder_id folder_meta fs1 m1 h,
    fun hname st1 m1 h => IoAdapterGdrive.gdrive_idem st parent_folder_id
      folder_meta nm st1 m1 hname h⟩

/-- Witness for C5 on concrete states: creating then re-requesting the
subfolder `d` returns the same id on all three variants. -/
theorem C5_get_or_create_subfolder_idempotent_witness :
    (∃ fs2 m2, IoAdapterPath.get_or_create_subfolder
        { dirs := ["p/d"], files := [] } "p"
        { id := none, name := some "d", parent_ids := none, _raw := none } =
        Except.ok (fs2, m2) ∧ m2.id = some "p/d") ∧
    (∃ fs2 m2, IoAdapterCloudPath.get_or_create_subfolder
        { dirs := ["p/d"], files := [] } "p"
        { id := none, name := some "d", parent_ids := none, _raw := none } =
        Except.ok (fs2, m2) ∧ m2.id = some "p/d") ∧
    (∃ st2 m2, IoAdapterGdrive.get_or_create_subfolder
        { objects :=
            [{ id := "gen0", name := "d", parents := ["root"],
               isFolder := true, content := [], trashed := false }],
          next_id := 1 } "root"
        { id := none, name := some "d", parent_ids := none, _raw := none } =
        Except.ok (st2, m2) ∧ m2.id = some "gen0") := by
  refine ⟨?_, ?_, ?_⟩
  · exact (C5_get_or_create_subfolder_idempotent { dirs := [], files := [] }
      { objects := [], next_id := 0 } "p"
      { id := none, name := some "d", parent_ids := none, _raw := none }
      "d").1 { dirs := ["p/d"], files := [] }
      { id := some "p/d", name := some "d", parent_ids := none, _raw := none }
      (by decide)
  · exact (C5_get_or_create_subfolder_idempotent { dirs := [], files := [] }
      { objects := [], next_id := 0 } "p"
      { id := none, name := some "d", parent_ids := none, _raw := none }
      "d").2.1 { dirs := ["p/d"], files := [] }
      { id := some "p/d", name := some "d", parent_ids := none, _raw := none }
      (by decide)
  · exact (C5_get_or_create_subfolder_idempotent { dirs := [], files := [] }
      { objects := [], next_id := 0 } "root"
      { id := none, name := some "d", parent_ids := none, _raw := none }
      "d").2.2 rfl
      { objects :=
          [{ id := "gen0", name := "d", parents := ["root"],
             isFolder := true, content := [], trashed := false }],
        next_id := 1 }
      { id := some "gen0", name := some "d", parent_ids := some [],
        _raw := some { id := "gen0", name := "d", parents := none } }
      (by decide)

theorem C10_create_subfolders_type_error (st : DriveState)
    (parent_folder_ids folder_names : List String) :
    IoAdapterGdrive.create_subfolders st parent_folder_ids folder_names =
      Except.error PyError.typeError ∧
    ∀ st2 metas, IoAdapterGdrive.create_subfolders st parent_folder_ids
      folder_names ≠ Except.ok (st2, metas) := by
  constructor
  · rfl
  · intro st2 metas hok
    simp [IoAdapterGdrive.create_subfolders, IoAdapterGdrive.call_missing_required_argument,
      Bind.bind, Except.bind] at hok

/-- Witness for C10 at a concrete input. -/
theorem C10_create_subfolders_type_error_witness :
    IoAdapterGdrive.create_subfolders { objects := [], next_id := 0 }
      ["root"] ["sub"] = Except.error PyError.typeError :=
  (C10_create_subfolders_type_error { objects := [], next_id := 0 }
    ["root"] ["sub"]).1

namespace IoAdapterGdrive

theorem find_map_update_self (objs : List DriveObject) (fid : String)
    (o o' : DriveObject) (ho' : o'.id = fid)
    (hfind : objs.find? (fun x => x.id == fid) = some o) :
    (objs.map (fun x => if x.id == fid then o' else x)).find?
      (fun x => x.id == fid) = some o' := by
  induction objs with
  | nil => simp [List.find?] at hfind
  | cons y ys ih =>
    simp only [List.map_cons]
    cases hy : y.id == fid with
    | true =>
      have hpred : (o'.id == fid) = true := by simp [ho']
      show List.find? (fun x => x.id == fid)
        (o' :: List.map (fun x => if x.id == fid then o' else x) ys) = some o'
      simp only [List.find?, hpred]
    | false =>
      simp only [List.find?, hy] at hfind
      show List.find? (fun x => x.id == fid)
        (y :: List.map (fun x => if x.id == fid then o' else x) ys) = some o'
      simp only [List.find?, hy]
      exact ih hfind

theorem find_map_update_ne (objs : List DriveObject) (fid oid : String)
    (o' : DriveObject) (ho' : o'.id = fid) (hne : oid ≠ fid) :
    (objs.map (fun x => if x.id == fid then o' else x)).find?
      (fun x => x.id == oid) = objs.find? (fun x => x.id == oid) := by
  induction objs with
  | nil => simp
  | cons y ys ih =>
    simp only [List.map_cons]
    cases hy : y.id == fid with
    | true =>
      have hyid : y.id = fid := by simpa using hy
      have h1 : (o'.id == oid) = false := by
        simp only [beq_eq_false_iff_ne, ne_eq, ho']
        exact fun hc => hne hc.symm
      have h2 : (y.id == oid) = false := by
        simp only [beq_eq_false_iff_ne, ne_eq, hyid]
        exact fun hc => hne hc.symm
      show List.find? (fun x => x.id == oid)
        (o' :: List.map (fun x => if x.id == fid then o' else x) ys) =
        List.find? (fun x => x.id == oid) (y :: ys)
      simp only [List.find?, h1, h2]
      exact ih
    | false =>
      show List.find? (fun x => x.id == oid)
        (y :: List.map (fun x => if x.id == fid then o' else x) ys) =
        List.find? (fun x => x.id == oid) (y :: ys)
      cases hz : y.id == oid with
      | true => simp only [List.find?, hz]
      | false =>
        simp only [List.find?, hz]
        exact ih

end IoAdapterGdrive

/-- C6: for the remote-drive adapter, `overwrite_file_bytes` updates the
object named by `file_meta.id` when that id is set; when it is unset it first
searches the target folder by name and updates the found object if one
exists, creating a new object in the folder otherwise; in all three cases the
returned metadata has its id field set (to the existing id, the found id, or
the newly assigned id), the target object carries the written bytes, and no
other object is touched. -/
theorem C6_overwrite_file_bytes (st : DriveState) (folder_id : String)
    (file_meta : FileMeta) (file_bytes : List Nat) :
    (∀ fid o, file_meta.id = some fid → st.lookup fid = some o →
      ∃ st2 m, IoAdapterGdrive.overwrite_file_bytes st folder_id file_meta
          file_bytes = Except.ok (st2, m) ∧
        m.id = some fid ∧
        st2.lookup fid = some
          { o with
            name := file_meta.name.getD o.name
            content := file_bytes } ∧
        (∀ oid, oid ≠ fid → st2.lookup oid = st.lookup oid)) ∧
    (∀ r rs o, file_meta.id = none →
      IoAdapterGdrive.files_list_by_name st folder_id
        (IoAdapterGdrive.folder_query_name file_meta) = r :: rs →
      st.lookup r.id = some o →
      ∃ st2 m, IoAdapterGdrive.overwrite_file_bytes st folder_id file_meta
          file_bytes = Except.ok (st2, m) ∧
        m.id = some r.id ∧
        st2.lookup r.id = some
          { o with
            name := file_meta.name.getD o.name
            content := file_bytes } ∧
        (∀ oid, oid ≠ r.id → st2.lookup oid = st.lookup oid)) ∧
    (file_meta.id = none →
      IoAdapterGdrive.files_list_by_name st folder_id
        (IoAdapterGdrive.folder_query_name file_meta) = [] →
      ∃ m, IoAdapterGdrive.overwrite_file_bytes st folder_id file_meta
          file_bytes = Except.ok
        ({ objects := st.objects ++
            [{ id := st.fresh_id, name := file_meta.name.getD "Untitled",
               parents := [folder_id], isFolder := false,
               content := file_bytes, trashed := false }],
           next_id := st.next_id + 1 }, m) ∧
        m.id = some st.fresh_id) := by
  refine ⟨fun fid o hid hlook => ?_, fun r rs o hid hlist hlook => ?_,
    fun hid hlist => ?_⟩
  · have hoid : o.id = fid := by
      simpa using List.find?_some hlook
    simp only [IoAdapterGdrive.overwrite_file_bytes, hid,
      IoAdapterGdrive.update_object, hlook]
    refine ⟨_, _, rfl, rfl, ?_, ?_⟩
    · show DriveState.lookup _ fid = _
      unfold DriveState.lookup
      exact IoAdapterGdrive.find_map_update_self st.objects fid o _ hoid hlook
    · intro oid hne
      show DriveState.lookup _ oid = _
      unfold DriveState.lookup
      exact IoAdapterGdrive.find_map_update_ne st.objects fid oid _ hoid hne
  · have hoid : o.id = r.id := by
      simpa using List.find?_some hlook
    simp only [IoAdapterGdrive.overwrite_file_bytes, hid, hlist,
      IoAdapterGdrive.update_object, hlook]
    refine ⟨_, _, rfl, rfl, ?_, ?_⟩
    · show DriveState.lookup _ r.id = _
      unfold DriveState.lookup
      exact IoAdapterGdrive.find_map_update_self st.objects r.id o _ hoid hlook
    · intro oid hne
      show DriveState.lookup _ oid = _
      unfold DriveState.lookup
      exact IoAdapterGdrive.find_map_update_ne st.objects r.id oid _ hoid hne
  · simp only [IoAdapterGdrive.overwrite_file_bytes, hid, hlist,
      IoAdapterGdrive.create_object]
    exact ⟨_, rfl, rfl⟩

/-- Witness for C6 on a concrete backend: overwriting by id updates that
object in place in the store, returns metadata with that id, and leaves the
other objects untouched. -/
theorem C6_overwrite_file_bytes_witness :
    ∃ st2 m, IoAdapterGdrive.overwrite_file_bytes drive_state_ex "root"
      { id := some "A", name := some "a2.txt", parent_ids := none,
        _raw := none } [9] = Except.ok (st2, m) ∧
      m.id = some "A" ∧
      st2.lookup "A" = some
        { id := "A"
          name := "a2.txt"
          parents := ["root"]
          isFolder := false
          content := [9]
          trashed := false } ∧
      (∀ oid, oid ≠ "A" → st2.lookup oid = drive_state_ex.lookup oid) := by
  exact (C6_overwrite_file_bytes drive_state_ex "root"
    { id := some "A", name := some "a2.txt", parent_ids := none,
      _raw := none } [9]).1 "A"
    { id := "A", name := "a.txt", parents := ["root"], isFolder := false,
      content := [1, 2], trashed := false } rfl (by decide)

/-- The Python object heap for `FileMeta` instances: an address is an index
into the allocation list; callers pass objects by reference (their address). -/
structure PyHeap where
  objs : List FileMeta
deriving DecidableEq, Repr

/-- Dereferencing an address. -/
def PyHeap.get (h : PyHeap) (a : Nat) : Option FileMeta := h.objs.get? a

/-- Allocating a new object (`copy.deepcopy` allocates the copy here): returns
the new heap and the fresh address. -/
def PyHeap.alloc (h : PyHeap) (v : FileMeta) : PyHeap × Nat :=
  ({ objs := h.objs ++ [v] }, h.objs.length)

/-- Assigning to a field mutates the object at its address in place. -/
def PyHeap.assign (h : PyHeap) (a : Nat) (v : FileMeta) : PyHeap :=
  { objs := h.objs.set a v }

namespace IoAdapterPath

/-- Embeds `IoAdapterPath.overwrite_file_bytes` against the Python object
heap: writes the bytes at `folder/name` (a `None` name fails with a TypeError
in the path join), then `copy.deepcopy(file_meta)` allocates a fresh object
equal to the argument, the copy's `id` attribute is assigned in place, and the
copy's address is returned. -/
def overwrite_file_bytes (h : PyHeap) (fs : FsState) (folder_id : String)
    (file_meta_ref : Nat) (file_bytes : List Nat) :
    Except PyError (PyHeap × FsState × Nat) :=
  match h.get file_meta_ref with
  | none => Except.error PyError.attributeError
  | some file_meta =>
    match file_meta.name with
    | none => Except.error PyError.typeError
    | some nm =>
      let path_file := path_join folder_id nm
      let fs2 := fs.write_file path_file file_bytes
      let copied := h.alloc file_meta
      let h2 := copied.1.assign copied.2 { file_meta with id := some path_file }
      Except.ok (h2, fs2, copied.2)

end IoAdapterPath

namespace IoAdapterCloudPath

/-- Embeds `IoAdapterCloudPath.overwrite_file_bytes`: textually the same
operation as the local-path variant, against the cloud path tree. -/
def overwrite_file_bytes (h : PyHeap) (fs : FsState) (folder_id : String)
    (file_meta_ref : Nat) (file_bytes : List Nat) :
    Except PyError (PyHeap × FsState × Nat) :=
  match h.get file_meta_ref with
  | none => Except.error PyError.attributeError
  | some file_meta =>
    match file_meta.name with
    | none => Except.error PyError.typeError
    | some nm =>
      let path_file := path_join folder_id nm
      let fs2 := fs.write_file path_file file_bytes
      let copied := h.alloc file_meta
      let h2 := copied.1.assign copied.2 { file_meta with id := some path_file }
      Except.ok (h2, fs2, copied.2)

end IoAdapterCloudPath

theorem get_append_set_left {α : Type} (l : List α) (v v' : α) (a : Nat)
    (ha : a < l.length) : ((l ++ [v]).set l.length v').get? a = l.get? a := by
  induction l generalizing a with
  | nil => simp at ha
  | cons x xs ih =>
    cases a with
    | zero => rfl
    | succ n =>
      show ((xs ++ [v]).set xs.length v').get? n = xs.get? n
      exact ih n (by simpa using ha)

theorem get_append_set_self {α : Type} (l : List α) (v v' : α) :
    ((l ++ [v]).set l.length v').get? l.length = some v' := by
  induction l with
  | nil => rfl
  | cons x xs ih =>
    simp only [List.cons_append, List.length_cons]
    exact ih

theorem get_append_left {α : Type} (l : List α) (v : α) (a : Nat)
    (ha : a < l.length) : (l ++ [v]).get? a = l.get? a := by
  induction l generalizing a with
  | nil => simp at ha
  | cons x xs ih =>
    cases a with
    | zero => rfl
    | succ n => exact ih n (by simpa using ha)

theorem get_append_length {α : Type} (l : List α) (v : α) :
    (l ++ [v]).get? l.length = some v := by
  induction l with
  | nil => rfl
  | cons x xs ih =>
    simp only [List.cons_append, List.length_cons]
    exact ih

namespace IoAdapterGdrive

/-- Embeds `IoAdapterGdrive.overwrite_file_bytes` against the Python object
heap: the body only reads the caller's object (its `id` and `name`
attributes) and never assigns to any of its fields; the returned metadata is
built by `raw_meta_to_file_meta` from the service response, a freshly
allocated record.  The drive-side behaviour is the state transformer
`overwrite_file_bytes`. -/
def overwrite_file_bytes_heap (h : PyHeap) (st : DriveState)
    (folder_id : String) (file_meta_ref : Nat) (file_bytes : List Nat) :
    Except PyError (PyHeap × DriveState × Nat) :=
  match h.get file_meta_ref with
  | none => Except.error PyError.attributeError
  | some file_meta =>
    match overwrite_file_bytes st folder_id file_meta file_bytes with
    | .error e => Except.error e
    | .ok result =>
      let allocated := h.alloc result.2
      Except.ok (allocated.1, result.1, allocated.2)

end IoAdapterGdrive

/-- C9: no `overwrite_file_bytes` variant mutates the caller-supplied
`FileMeta`: for the path-backed variants the object at the caller's reference
keeps its id, name, parent ids and raw payload unchanged and the returned
value is a distinct fresh copy (at a new address) carrying the updated id;
for the remote-drive variant the caller's object is likewise untouched and
the returned metadata is a freshly allocated record translated from the
service response. -/
theorem C9_overwrite_does_not_mutate_caller_meta (h : PyHeap) (fs : FsState)
    (folder_id : String) (a : Nat) (file_bytes : List Nat) (fm : FileMeta)
    (nm : String) (hget : h.get a = some fm) (hname : fm.name = some nm) :
    (∃ h2 fs2 ra, IoAdapterPath.overwrite_file_bytes h fs folder_id a
        file_bytes = Except.ok (h2, fs2, ra) ∧ ra ≠ a ∧
      h2.get a = some fm ∧
      h2.get ra = some { fm with id := some (path_join folder_id nm) }) ∧
    (∃ h2 fs2 ra, IoAdapterCloudPath.overwrite_file_bytes h fs folder_id a
        file_bytes = Except.ok (h2, fs2, ra) ∧ ra ≠ a ∧
      h2.get a = some fm ∧
      h2.get ra = some { fm with id := some (path_join folder_id nm) }) ∧
    (∀ (st st2 : DriveState) (m : FileMeta),
      IoAdapterGdrive.overwrite_file_bytes st folder_id fm file_bytes =
        Except.ok (st2, m) →
      ∃ h2 ra, IoAdapterGdrive.overwrite_file_bytes_heap h st folder_id a
          file_bytes = Except.ok (h2, st2, ra) ∧ ra ≠ a ∧
        h2.get a = some fm ∧ h2.get ra = some m) := by
  have halt : a < h.objs.length := by
    by_contra hcon
    push_neg at hcon
    rw [show h.get a = h.objs.get? a from rfl, List.get?_eq_none.mpr hcon]
      at hget
    exact absurd hget (by simp)
  have hne : h.objs.length ≠ a := by omega
  refine ⟨?_, ?_, ?_⟩
  · refine ⟨{ objs := (h.objs ++ [fm]).set h.objs.length
                { fm with id := some (path_join folder_id nm) } },
      fs.write_file (path_join folder_id nm) file_bytes, h.objs.length,
      ?_, hne, ?_, ?_⟩
    · simp only [IoAdapterPath.overwrite_file_bytes, hget, hname,
        PyHeap.alloc, PyHeap.assign]
    · show ((h.objs ++ [fm]).set h.objs.length
        { fm with id := some (path_join folder_id nm) }).get? a = some fm
      rw [get_append_set_left _ _ _ _ halt]
      exact hget
    · exact get_append_set_self _ _ _
  · refine ⟨{ objs := (h.objs ++ [fm]).set h.objs.length
                { fm with id := some (path_join folder_id nm) } },
      fs.write_file (path_join folder_id nm) file_bytes, h.objs.length,
      ?_, hne, ?_, ?_⟩
    · simp only [IoAdapterCloudPath.overwrite_file_bytes, hget, hname,
        PyHeap.alloc, PyHeap.assign]
    · show ((h.objs ++ [fm]).set h.objs.length
        { fm with id := some (path_join folder_id nm) }).get? a = some fm
      rw [get_append_set_left _ _ _ _ halt]
      exact hget
    · exact get_append_set_self _ _ _
  · intro st st2 m hok
    refine ⟨{ objs := h.objs ++ [m] }, h.objs.length, ?_, hne, ?_, ?_⟩
    · simp only [IoAdapterGdrive.overwrite_file_bytes_heap, hget, hok,
        PyHeap.alloc]
    · show (h.objs ++ [m]).get? a = some fm
      rw [get_append_left _ _ _ halt]
      exact hget
    · exact get_append_length _ _

/-- Witness for C9 on one-object heaps: for all three variants the caller's
record at address 0 is unchanged and the returned metadata is a fresh copy at
the new address. -/
theorem C9_overwrite_does_not_mutate_caller_meta_witness :
    (∃ h2 fs2 ra, IoAdapterPath.overwrite_file_bytes
        { objs := [{ id := none, name := some "f.txt", parent_ids := none,
                     _raw := none }] }
        { dirs := [], files := [] } "dir" 0 [5] =
        Except.ok (h2, fs2, ra) ∧ ra ≠ 0 ∧
      h2.get 0 = some { id := none, name := some "f.txt", parent_ids := none,
                        _raw := none } ∧
      h2.get ra = some { id := some (path_join "dir" "f.txt"),
                         name := some "f.txt", parent_ids := none,
                         _raw := none }) ∧
    (∃ h2 fs2 ra, IoAdapterCloudPath.overwrite_file_bytes
        { objs := [{ id := none, name := some "f.txt", parent_ids := none,
                     _raw := none }] }
        { dirs := [], files := [] } "dir" 0 [5] =
        Except.ok (h2, fs2, ra) ∧ ra ≠ 0 ∧
      h2.get 0 = some { id := none, name := some "f.txt", parent_ids := none,
                        _raw := none } ∧
      h2.get ra = some { id := some (path_join "dir" "f.txt"),
                         name := some "f.txt", parent_ids := none,
                         _raw := none }) ∧
    (∃ h2 st2 ra, IoAdapterGdrive.overwrite_file_bytes_heap
        { objs := [{ id := some "A", name := some "a2.txt",
                     parent_ids := none, _raw := none }] }
        drive_state_ex "root" 0 [9] = Except.ok (h2, st2, ra) ∧ ra ≠ 0 ∧
      h2.get 0 = some { id := some "A", name := some "a2.txt",
                        parent_ids := none, _raw := none } ∧
      h2.get ra = some (raw_meta_to_file_meta
        { id := "A", name := "a2.txt", parents := none })) := by
  refine ⟨?_, ?_, ?_⟩
  · exact (C9_overwrite_does_not_mutate_caller_meta
      { objs := [{ id := none, name := some "f.txt", parent_ids := none,
                   _raw := none }] }
      { dirs := [], files := [] } "dir" 0 [5]
      { id := none, name := some "f.txt", parent_ids := none, _raw := none }
      "f.txt" rfl rfl).1
  · exact (C9_overwrite_does_not_mutate_caller_meta
      { objs := [{ id := none, name := some "f.txt", parent_ids := none,
                   _raw := none }] }
      { dirs := [], files := [] } "dir" 0 [5]
      { id := none, name := some "f.txt", parent_ids := none, _raw := none }
      "f.txt" rfl rfl).2.1
  · obtain ⟨h2, ra, hcall, hra, hold, hnew⟩ :=
      (C9_overwrite_does_not_mutate_caller_meta
        { objs := [{ id := some "A", name := some "a2.txt",
                     parent_ids := none, _raw := none }] }
        { dirs := [], files := [] } "root" 0 [9]
        { id := some "A", name := some "a2.txt", parent_ids := none,
          _raw := none }
        "a2.txt" rfl rfl).2.2 drive_state_ex
        { objects :=
            [ { id := "root", name := "My Drive", parents := [],
                isFolder := true, content := [], trashed := false },
              { id := "A", name := "a2.txt", parents := ["root"],
                isFolder := false, content := [9], trashed := false },
              { id := "B", name := "b.txt", parents := [], isFolder := false,
                content := [], trashed := false },
              { id := "C", name := "c.txt", parents := ["root", "A"],
                isFolder := false, content := [], trashed := false } ],
          next_id := 0 }
        (raw_meta_to_file_meta { id := "A", name := "a2.txt",
                                 parents := none })
        (by decide)
    exact ⟨h2, _, ra, hcall, hra, hold, hnew⟩

namespace IoAdapterGdrive

/-- The retryable HTTP status codes of `download_bytes`. -/
def http_response_to_retry : List Nat := [408, 425, 429, 500, 502, 503, 504]

/-- One attempt of the inner `download_file`: the HTTP GET is modelled by its
response, a status code and body.  A 200 returns the body; a retryable status
raises the transient error; any other status returns `None`. -/
def download_file_once (resp : Nat × List Nat) :
    Except PyError (Option (List Nat)) :=
  if resp.1 ≠ 200 then
    if http_response_to_retry.contains resp.1 then
      Except.error PyError.transientError
    else Except.ok none
  else Except.ok (some resp.2)

/-- Embeds the decorated `download_file` of `download_bytes`: the module's
retry policy applied to one URL, whose per-attempt responses are modelled as a
map from attempt index to response.  The second component is the list of slept
delays. -/
def download_file (behavior : Nat → Nat × List Nat) :
    Except PyError (Option (List Nat)) × List Nat :=
  retry_gdrive_run (fun i => download_file_once (behavior i))

/-- The `task.result()` of the i-th submitted task (an out-of-range index
would be an IndexError; the completion order only ever lists real tasks). -/
def task_result (behaviors : List (Nat → Nat × List Nat)) (i : Nat) :
    Except PyError (Option (List Nat)) :=
  match behaviors.get? i with
  | some b => (download_file b).1
  | none => Except.error PyError.indexError

/-- Embeds `IoAdapterGdrive.download_bytes`: the thread pool submits one task
per URL and the comprehension gathers `task.result()` over
`as_completed(tasks)`, i.e. in task completion order — modelled by the
permutation `completion_order` of the task indices, one per possible
execution.  The first gathered task that raised propagates its exception. -/
def download_bytes (behaviors : List (Nat → Nat × List Nat))
    (completion_order : List Nat) :
    Except PyError (List (Option (List Nat))) :=
  completion_order.mapM (task_result behaviors)

theorem download_bytes_all_ok (behaviors : List (Nat → Nat × List Nat))
    (completion_order : List Nat) (f : Nat → Option (List Nat))
    (h : ∀ i ∈ completion_order, task_result behaviors i = Except.ok (f i)) :
    download_bytes behaviors completion_order =
      Except.ok (completion_order.map f) := by
  induction completion_order with
  | nil => rfl
  | cons i rest ih =>
    have hi := h i (List.mem_cons_self _ _)
    have hrest := ih (fun j hj => h j (List.mem_cons_of_mem _ hj))
    simp only [download_bytes] at hrest ⊢
    rw [List.mapM_cons, hi, hrest]
    rfl

end IoAdapterGdrive

/-- A URL whose server always answers 200 with body `[7]`. -/
def beh_ok : Nat → Nat × List Nat := fun _ => (200, [7])

/-- A second distinct 200-URL, body `[8]`. -/
def beh_ok2 : Nat → Nat × List Nat := fun _ => (200, [8])

/-- A URL whose server always answers HTTP 500. -/
def beh_500 : Nat → Nat × List Nat := fun _ => (500, [])

/-- A URL whose server always answers HTTP 404 (non-retryable). -/
def beh_404 : Nat → Nat × List Nat := fun _ => (404, [])

/-- C3 counterexample: for the claimed input — one URL answering 200 with a
body and one URL always answering 500 — `download_bytes` does not return a
2-element result with `None` for the failing URL: under either completion
order it raises the transient error, because the 500 task's retry wrapper
re-raises after its bounded attempts and `task.result()` propagates that
exception out of the pool. -/
theorem C3_download_counterexample :
    IoAdapterGdrive.download_bytes [beh_ok, beh_500] [0, 1] =
      Except.error PyError.transientError ∧
    IoAdapterGdrive.download_bytes [beh_ok, beh_500] [1, 0] =
      Except.error PyError.transientError := by
  constructor
  · rfl
  · rfl

/-- C3 amended: for the input where the first URL answers 200 with some body
and the second always answers 500 under two workers, every execution of
`download_bytes` raises the transient error after the 500 task's 4 bounded
attempts (slept delays 1, 2, 4) are exhausted; a `None` entry is produced only
for a non-retryable non-200 status, as with a 404 in place of the 500. -/
theorem C3_download_amended (body : List Nat) (completion_order : List Nat)
    (h : completion_order = [0, 1] ∨ completion_order = [1, 0]) :
    IoAdapterGdrive.download_bytes [fun _ => (200, body), beh_500]
      completion_order = Except.error PyError.transientError ∧
    (IoAdapterGdrive.download_file beh_500).2 = [1, 2, 4] ∧
    IoAdapterGdrive.download_bytes [fun _ => (200, body), beh_404]
      completion_order =
      (if completion_order = [0, 1] then Except.ok [some body, none]
       else Except.ok [none, some body]) := by
  have hok : IoAdapterGdrive.task_result [fun _ => (200, body), beh_404] 0 =
      Except.ok (some body) := by
    simp [IoAdapterGdrive.task_result, IoAdapterGdrive.download_file,
      IoAdapterGdrive.download_file_once, retry_gdrive_run, retry_exec]
  have hok5 : IoAdapterGdrive.task_result [fun _ => (200, body), beh_500] 0 =
      Except.ok (some body) := by
    simp [IoAdapterGdrive.task_result, IoAdapterGdrive.download_file,
      IoAdapterGdrive.download_file_once, retry_gdrive_run, retry_exec]
  have h500 : IoAdapterGdrive.task_result [fun _ => (200, body), beh_500] 1 =
      Except.error PyError.transientError := rfl
  have h404 : IoAdapterGdrive.task_result [fun _ => (200, body), beh_404] 1 =
      Except.ok none := rfl
  rcases h with rfl | rfl
  · refine ⟨?_, rfl, ?_⟩
    · simp only [IoAdapterGdrive.download_bytes, List.mapM_cons, hok5, h500]
      rfl
    · simp only [IoAdapterGdrive.download_bytes, List.mapM_cons, hok, h404,
        if_pos rfl]
      rfl
  · refine ⟨?_, rfl, ?_⟩
    · simp only [IoAdapterGdrive.download_bytes, List.mapM_cons, h500]
      rfl
    · have hne : ([1, 0] : List Nat) ≠ [0, 1] := by decide
      simp only [IoAdapterGdrive.download_bytes, List.mapM_cons, hok, h404,
        if_neg hne]
      rfl

/-- Witness for C3's amended statement at a concrete body and completion
order. -/
theorem C3_download_amended_witness :
    IoAdapterGdrive.download_bytes [fun _ => (200, [7]), beh_500] [0, 1] =
      Except.error PyError.transientError ∧
    (IoAdapterGdrive.download_file beh_500).2 = [1, 2, 4] ∧
    IoAdapterGdrive.download_bytes [fun _ => (200, [7]), beh_404] [0, 1] =
      (if ([0, 1] : List Nat) = [0, 1] then Except.ok [some [7], none]
       else Except.ok [none, some [7]]) :=
  C3_download_amended [7] [0, 1] (Or.inl rfl)

/-- C8: `download_bytes` returns its entries in task completion order, not in
input order: whenever all tasks succeed, the result list is the per-task
results arranged along the completion order; and there is an execution of a
two-URL input whose first entry is the second URL's body, differing from the
first URL's body. -/
theorem C8_download_completion_order :
    (∀ (behaviors : List (Nat → Nat × List Nat))
      (completion_order : List Nat) (f : Nat → Option (List Nat)),
      (∀ i ∈ completion_order,
        IoAdapterGdrive.task_result behaviors i = Except.ok (f i)) →
      IoAdapterGdrive.download_bytes behaviors completion_order =
        Except.ok (completion_order.map f)) ∧
    (IoAdapterGdrive.download_bytes [beh_ok, beh_ok2] [1, 0] =
      Except.ok [some [8], some [7]] ∧ ([8] : List Nat) ≠ [7]) := by
  refine ⟨IoAdapterGdrive.download_bytes_all_ok, ?_, by decide⟩
  rfl

/-- Witness for C8's completion-order characterisation at a concrete input. -/
theorem C8_download_completion_order_witness :
    IoAdapterGdrive.download_bytes [beh_ok, beh_ok2] [1, 0] =
      Except.ok ([1, 0].map
        (fun i => if i = 0 then some [7] else some [8])) :=
  C8_download_completion_order.1 [beh_ok, beh_ok2] [1, 0]
    (fun i => if i = 0 then some [7] else some [8]) (by decide)
